import Mathlib

/-!
Verification of the marketing-plan service (`src/app.py`).

Python text is modelled as `List Char`; Python `dict`s appearing in the code
are modelled either as association lists (JSON objects, the `squares`
mapping of a plan) or as total records (the business-context dictionary,
which is created with all ten keys present and only ever updated).
Machinery that can raise in Python is modelled with `Option`/`Except`.
-/

/-- Python strings are modelled as lists of characters. -/
abbrev Str := List Char

/-- Conversion from Lean string literals. -/
def str (s : String) : Str := s.data

/-- Python `needle in hay` substring test on strings. -/
def isSubstr (needle : Str) (hay : Str) : Bool :=
  match hay with
  | [] => needle.isEmpty
  | _ :: t => needle.isPrefixOf hay || isSubstr needle t

/-- Characters removed by Python `str.strip()` (ASCII whitespace). -/
def isPySpace (c : Char) : Bool :=
  c == ' ' || c == '\t' || c == '\n' || c == '\r' || c == '\x0b' || c == '\x0c'

/-- Python `str.strip()`: remove leading and trailing whitespace. -/
def pyStrip (s : Str) : Str :=
  ((s.dropWhile isPySpace).reverse.dropWhile isPySpace).reverse

/-- Python `str.lower()` (ASCII range, which covers all identifiers used). -/
def lowerStr (s : Str) : Str := s.map Char.toLower

/-- Python `str.isdigit` for ASCII digits. -/
def isDigitChar (c : Char) : Bool := '0' ≤ c && c ≤ '9'

/-- Lookup in an association list (Python `dict` read: keys are unique). -/
def findVal {κ ν : Type} [DecidableEq κ] : List (κ × ν) → κ → Option ν
  | [], _ => none
  | (k, v) :: rest, k' => if k = k' then some v else findVal rest k'

/-- Python `dict` write `d[k] = v`: replace in place if the key exists,
otherwise append at the end (insertion order is preserved). -/
def insertKV {κ ν : Type} [DecidableEq κ] : List (κ × ν) → κ → ν → List (κ × ν)
  | [], k, v => [(k, v)]
  | (k0, v0) :: rest, k, v =>
    if k0 = k then (k0, v) :: rest else (k0, v0) :: insertKV rest k v

/-- Digit run with optional single underscores between digits, as accepted by
Python `int()`; returns the accumulated value. -/
def pyDigits : Str → Nat → Option Nat
  | [], acc => some acc
  | c :: '_' :: d :: rest2, acc =>
    if isDigitChar c then
      if isDigitChar d then
        pyDigits rest2 ((acc * 10 + (c.toNat - 48)) * 10 + (d.toNat - 48))
      else none
    else none
  | c :: rest, acc =>
    if isDigitChar c then pyDigits rest (acc * 10 + (c.toNat - 48)) else none

/-- Python `int(s)`: optional surrounding whitespace, optional sign, a
non-empty digit run (underscores allowed between digits); `none` models
the `ValueError` raised on any other input. -/
def pyInt (s : Str) : Option Int :=
  let t := pyStrip s
  match t with
  | '-' :: rest => if rest = [] then none else (pyDigits rest 0).map (fun n => -(n : Int))
  | '+' :: rest => if rest = [] then none else (pyDigits rest 0).map (fun n => (n : Int))
  | [] => none
  | _ => (pyDigits t 0).map (fun n => (n : Int))

/-! ## Data model (`src/app.py` Pydantic models) -/

/-- A questionnaire answer: Python `Union[str, List[str]]`. -/
inductive Ans where
  | s (v : Str)
  | l (v : List Str)
deriving DecidableEq

/-- Model of `answer if isinstance(answer, list) else [answer]`. -/
def wrapList : Ans → List Str
  | .l vs => vs
  | .s v => [v]

/-- Rendering of an answer inside a Python f-string: a string renders as
itself; a list renders as its `repr` (quoted elements in brackets). -/
def Ans.interp : Ans → Str
  | .s v => v
  | .l vs =>
    str "[" ++ (List.intersperse (str ", ") (vs.map (fun v => str "\x27" ++ v ++ str "\x27"))).flatten ++ str "]"

/-- Pydantic `str` field validation: a plain string passes, a list fails. -/
def Ans.asStr : Ans → Option Str
  | .s v => some v
  | .l _ => none

/-- The `QuestionnaireResponse` model. -/
structure QuestionnaireResponse where
  question_id : Str
  answer : Ans
deriving DecidableEq

/-- The business-context dictionary built by `extract_business_context`.
It is created with exactly these ten keys and only ever updated, so it is
modelled as a total record; scalar keys hold whatever answer was assigned
(string or list), the two list keys always hold lists because every
assignment to them wraps the answer. -/
structure Context where
  industry : Ans
  business_model : Ans
  company_size : Ans
  challenges : List Str
  years_in_operation : Ans
  geographic_scope : Ans
  marketing_maturity : Ans
  marketing_budget : Ans
  time_availability : Ans
  business_goals : List Str
deriving DecidableEq

/-- The context literal at the top of `extract_business_context`. -/
def initial_context : Context :=
  { industry := .s (str "Not specified")
  , business_model := .s (str "Not specified")
  , company_size := .s (str "Not specified")
  , challenges := []
  , years_in_operation := .s (str "Not specified")
  , geographic_scope := .s (str "Not specified")
  , marketing_maturity := .s (str "Not specified")
  , marketing_budget := .s (str "Not specified")
  , time_availability := .s (str "Not specified")
  , business_goals := [] }

/-- One iteration of the response loop in `extract_business_context`:
exact matches on the canonical question ids first, then the legacy
substring heuristics, in the order of the Python `if`/`elif` chain. -/
def extractStep (context : Context) (response : QuestionnaireResponse) : Context :=
  let question_id := lowerStr response.question_id
  let answer := response.answer
  if question_id = str "industry" then { context with industry := answer }
  else if question_id = str "business-model" then { context with business_model := answer }
  else if question_id = str "company-size" then { context with company_size := answer }
  else if question_id = str "years-in-operation" then { context with years_in_operation := answer }
  else if question_id = str "geographic-scope" then { context with geographic_scope := answer }
  else if question_id = str "primary-challenges" then { context with challenges := wrapList answer }
  else if question_id = str "marketing-maturity" then { context with marketing_maturity := answer }
  else if question_id = str "marketing-budget" then { context with marketing_budget := answer }
  else if question_id = str "time-availability" then { context with time_availability := answer }
  else if question_id = str "business-goals" then { context with business_goals := wrapList answer }
  else if isSubstr (str "industry") question_id then { context with industry := answer }
  else if isSubstr (str "model") question_id then { context with business_model := answer }
  else if isSubstr (str "size") question_id then { context with company_size := answer }
  else if isSubstr (str "challenge") question_id then
    { context with challenges := context.challenges ++ wrapList answer }
  else context

/-- Model of `extract_business_context`: fold the response list over the chain above. -/
def extract_business_context (responses : List QuestionnaireResponse) : Context :=
  responses.foldl extractStep initial_context

/-- The ten fields of the business-context record. -/
inductive CtxField where
  | industry | business_model | company_size | challenges | years_in_operation
  | geographic_scope | marketing_maturity | marketing_budget | time_availability
  | business_goals
deriving DecidableEq

/-- Which context field (if any) a question id is matched to, mirroring the
`if`/`elif` chain of `extract_business_context` branch for branch. -/
def matchedField (qid : Str) : Option CtxField :=
  let question_id := lowerStr qid
  if question_id = str "industry" then some .industry
  else if question_id = str "business-model" then some .business_model
  else if question_id = str "company-size" then some .company_size
  else if question_id = str "years-in-operation" then some .years_in_operation
  else if question_id = str "geographic-scope" then some .geographic_scope
  else if question_id = str "primary-challenges" then some .challenges
  else if question_id = str "marketing-maturity" then some .marketing_maturity
  else if question_id = str "marketing-budget" then some .marketing_budget
  else if question_id = str "time-availability" then some .time_availability
  else if question_id = str "business-goals" then some .business_goals
  else if isSubstr (str "industry") question_id then some .industry
  else if isSubstr (str "model") question_id then some .business_model
  else if isSubstr (str "size") question_id then some .company_size
  else if isSubstr (str "challenge") question_id then some .challenges
  else none

/-- Model of `determine_square_from_question`: keyword buckets tried in order. -/
def determine_square_from_question (question_id : Str) : Int :=
  let q := lowerStr question_id
  if [str "target", str "demographics", str "customer", str "pain-points", str "goals",
      str "buying-behavior", str "sources"].any (fun k => isSubstr k q) then 1
  else if [str "problem-solved", str "unique-advantages", str "benefits", str "emotional",
      str "proof-points"].any (fun k => isSubstr k q) then 2
  else if [str "marketing-channels", str "digital-marketing", str "content-creation"].any
      (fun k => isSubstr k q) then 3
  else if [str "lead-generation", str "lead-magnets", str "website-optimization"].any
      (fun k => isSubstr k q) then 4
  else if [str "follow-up", str "email-marketing", str "educational-content",
      str "relationship-timeline"].any (fun k => isSubstr k q) then 5
  else if [str "sales-process", str "objections", str "pricing-strategy",
      str "conversion-rate"].any (fun k => isSubstr k q) then 6
  else if [str "delivery-method", str "onboarding", str "customer-support",
      str "feedback"].any (fun k => isSubstr k q) then 7
  else if [str "repeat-business", str "upsell", str "retention",
      str "customer-value"].any (fun k => isSubstr k q) then 8
  else if [str "referrals", str "referral-process", str "incentives",
      str "advocacy"].any (fun k => isSubstr k q) then 9
  else 0

/-! ## JSON decoding (model of Python `json.loads`)

Numbers (including the `NaN`/`Infinity` extensions Python accepts) are kept
as their raw lexeme since no value in this code base inspects them.
Surrogate-pair combination in `\uXXXX` escapes is elided. Duplicate object
keys follow `dict` semantics: the later value wins, at the first key's
position. -/

/-- A decoded JSON value. -/
inductive Json where
  | null
  | bool (b : Bool)
  | num (lexeme : Str)
  | jstr (s : Str)
  | arr (elems : List Json)
  | obj (fields : List (Str × Json))

/-- Whitespace skipped between JSON tokens. -/
def isJsonWs (c : Char) : Bool := c == ' ' || c == '\t' || c == '\n' || c == '\r'

/-- Skip inter-token whitespace. -/
def skipWs (s : Str) : Str := s.dropWhile isJsonWs

/-- Value of one hexadecimal digit. -/
def hexVal (c : Char) : Option Nat :=
  if '0' ≤ c ∧ c ≤ '9' then some (c.toNat - 48)
  else if 'a' ≤ c ∧ c ≤ 'f' then some (c.toNat - 87)
  else if 'A' ≤ c ∧ c ≤ 'F' then some (c.toNat - 55)
  else none

/-- Lex a JSON string body (the opening quote already consumed); returns the
decoded content and the remaining input after the closing quote. Raw control
characters are rejected (strict mode) and the standard escapes are decoded. -/
def lexJsonString : Str → Option (Str × Str)
  | [] => none
  | '"' :: rest => some ([], rest)
  | '\\' :: 'u' :: h1 :: h2 :: h3 :: h4 :: rest => do
    let v1 ← hexVal h1
    let v2 ← hexVal h2
    let v3 ← hexVal h3
    let v4 ← hexVal h4
    let (tail, r) ← lexJsonString rest
    some (Char.ofNat (((v1 * 16 + v2) * 16 + v3) * 16 + v4) :: tail, r)
  | '\\' :: e :: rest => do
    let ec ←
      if e = '"' then some '"'
      else if e = '\\' then some '\\'
      else if e = '/' then some '/'
      else if e = 'b' then some '\x08'
      else if e = 'f' then some '\x0c'
      else if e = 'n' then some '\n'
      else if e = 'r' then some '\r'
      else if e = 't' then some '\t'
      else none
    let (tail, r) ← lexJsonString rest
    some (ec :: tail, r)
  | c :: rest =>
    if c.toNat < 32 then none
    else do
      let (tail, r) ← lexJsonString rest
      some (c :: tail, r)

/-- Optional fraction part of a number literal; consumes nothing unless a
dot followed by at least one digit is present. -/
def lexFrac (s : Str) : Str × Str :=
  match s with
  | '.' :: r =>
    let ds := r.takeWhile isDigitChar
    if ds.isEmpty then ([], s) else ('.' :: ds, r.dropWhile isDigitChar)
  | _ => ([], s)

/-- Optional exponent part of a number literal; consumes nothing unless an
`e`/`E` with an optionally signed non-empty digit run is present. -/
def lexExp (s : Str) : Str × Str :=
  match s with
  | e :: r =>
    if e = 'e' ∨ e = 'E' then
      match r with
      | sg :: r2 =>
        if sg = '+' ∨ sg = '-' then
          let ds := r2.takeWhile isDigitChar
          if ds.isEmpty then ([], s) else (e :: sg :: ds, r2.dropWhile isDigitChar)
        else
          let ds := r.takeWhile isDigitChar
          if ds.isEmpty then ([], s) else (e :: ds, r.dropWhile isDigitChar)
      | [] => ([], s)
    else ([], s)
  | [] => ([], s)

/-- Lex an (unsigned) JSON number after the sign: `0` or a non-zero digit
run, then optional fraction and exponent. -/
def lexUnsignedNumber (s : Str) : Option (Str × Str) :=
  match s with
  | c :: r =>
    if ¬ isDigitChar c then none
    else
      let (intPart, s1) :=
        if c = '0' then ([c], r)
        else (c :: r.takeWhile isDigitChar, r.dropWhile isDigitChar)
      let (fracPart, s2) := lexFrac s1
      let (expPart, s3) := lexExp s2
      some (intPart ++ fracPart ++ expPart, s3)
  | [] => none

/-- Lex a JSON number with optional leading minus sign. -/
def lexNumber (s : Str) : Option (Str × Str) :=
  match s with
  | '-' :: r => (lexUnsignedNumber r).map (fun (lx, rest) => ('-' :: lx, rest))
  | _ => lexUnsignedNumber s

mutual

/-- Parse one JSON value (leading whitespace allowed); fuel bounds the
recursion depth and is always sufficient for the input length. -/
def parseVal : Nat → Str → Option (Json × Str)
  | 0, _ => none
  | fuel + 1, s =>
    match skipWs s with
    | [] => none
    | c :: r =>
      if c = '"' then (lexJsonString r).map (fun (cs, rest) => (.jstr cs, rest))
      else if c = '\x7b' then
        match skipWs r with
        | '\x7d' :: r2 => some (.obj [], r2)
        | s2 => (parseMembers fuel s2 []).map (fun (kvs, rest) => (.obj kvs, rest))
      else if c = '[' then
        match skipWs r with
        | ']' :: r2 => some (.arr [], r2)
        | s2 => (parseElems fuel s2 []).map (fun (es, rest) => (.arr es, rest))
      else if (str "true").isPrefixOf (c :: r) then some (.bool true, (c :: r).drop 4)
      else if (str "false").isPrefixOf (c :: r) then some (.bool false, (c :: r).drop 5)
      else if (str "null").isPrefixOf (c :: r) then some (.null, (c :: r).drop 4)
      else if (str "NaN").isPrefixOf (c :: r) then some (.num (str "NaN"), (c :: r).drop 3)
      else if (str "Infinity").isPrefixOf (c :: r) then
        some (.num (str "Infinity"), (c :: r).drop 8)
      else if (str "-Infinity").isPrefixOf (c :: r) then
        some (.num (str "-Infinity"), (c :: r).drop 9)
      else (lexNumber (c :: r)).map (fun (lx, rest) => (.num lx, rest))

/-- Parse the elements of a non-empty JSON array. -/
def parseElems : Nat → Str → List Json → Option (List Json × Str)
  | 0, _, _ => none
  | fuel + 1, s, acc =>
    match parseVal fuel s with
    | none => none
    | some (v, rest) =>
      match skipWs rest with
      | ',' :: r2 => parseElems fuel r2 (acc ++ [v])
      | ']' :: r2 => some (acc ++ [v], r2)
      | _ => none

/-- Parse the members of a non-empty JSON object. -/
def parseMembers : Nat → Str → List (Str × Json) → Option (List (Str × Json) × Str)
  | 0, _, _ => none
  | fuel + 1, s, acc =>
    match skipWs s with
    | '"' :: r =>
      match lexJsonString r with
      | none => none
      | some (k, r2) =>
        match skipWs r2 with
        | ':' :: r3 =>
          match parseVal fuel r3 with
          | none => none
          | some (v, r4) =>
            let acc2 := insertKV acc k v
            match skipWs r4 with
            | ',' :: r5 => parseMembers fuel r5 acc2
            | '\x7d' :: r5 => some (acc2, r5)
            | _ => none
        | _ => none
    | _ => none

end

/-- Python `json.loads`: parse one value and require only whitespace after
it; `none` models `json.JSONDecodeError`. -/
def json_loads (s : Str) : Option Json :=
  match parseVal (s.length + 1) s with
  | some (v, rest) => if skipWs rest = [] then some v else none
  | none => none

/-! ## Plan data model -/

/-- The `MarketingSquare` model. -/
structure MarketingSquare where
  title : Str
  summary : Str
  key_points : List Str
  recommendations : List Str
deriving DecidableEq

/-- The `BusinessContext` model (the validated Pydantic record). -/
structure BusinessContext where
  industry : Str
  business_model : Str
  company_size : Str
  challenges : List Str
  years_in_operation : Str
  geographic_scope : Str
  marketing_maturity : Str
  marketing_budget : Str
  time_availability : Str
  business_goals : List Str
deriving DecidableEq

/-- The `MarketingPlan` model; the `squares` dictionary keeps insertion order. -/
structure MarketingPlan where
  business_context : BusinessContext
  squares : List (Int × MarketingSquare)
  generated_at : Str
deriving DecidableEq

/-- A raised Python exception escaping a modelled function. -/
inductive PyErr where
  | validationError
deriving DecidableEq

instance {ε α : Type} [DecidableEq ε] [DecidableEq α] : DecidableEq (Except ε α) := fun a b =>
  match a, b with
  | .ok x, .ok y => if h : x = y then isTrue (by rw [h]) else isFalse (by simp [h])
  | .error x, .error y => if h : x = y then isTrue (by rw [h]) else isFalse (by simp [h])
  | .ok _, .error _ => isFalse (by simp)
  | .error _, .ok _ => isFalse (by simp)

/-- Model of the `BusinessContext(...)` construction from the context dictionary, as done
identically in `parse_ai_response_to_plan` and `generate_fallback_plan`: the
dictionary always carries all ten keys, so the `.get` defaults are never
taken; Pydantic validation fails if a list was stored under a `str` field. -/
def mkBusinessContext (business_context : Context) : Option BusinessContext := do
  let industry ← business_context.industry.asStr
  let business_model ← business_context.business_model.asStr
  let company_size ← business_context.company_size.asStr
  let years_in_operation ← business_context.years_in_operation.asStr
  let geographic_scope ← business_context.geographic_scope.asStr
  let marketing_maturity ← business_context.marketing_maturity.asStr
  let marketing_budget ← business_context.marketing_budget.asStr
  let time_availability ← business_context.time_availability.asStr
  some
    { industry := industry
    , business_model := business_model
    , company_size := company_size
    , challenges := business_context.challenges
    , years_in_operation := years_in_operation
    , geographic_scope := geographic_scope
    , marketing_maturity := marketing_maturity
    , marketing_budget := marketing_budget
    , time_availability := time_availability
    , business_goals := business_context.business_goals }

/-! ## Fallback template bank (`generate_fallback_plan`, lines 499-644) -/

/-- The `square_templates` dictionary literal. Square 1 interpolates
business-context fields into its summary and key points; the other eight
squares are fully static. -/
def square_templates (business_context : Context) : List (Int × MarketingSquare) :=
  [ (1,
    { title := str "Target Market & Customer Avatar"
    , summary := str "Define your ideal customers in the " ++ business_context.industry.interp
        ++ str " industry with a focus on " ++ business_context.business_model.interp ++ str "."
    , key_points :=
      [ str "Operating in " ++ business_context.industry.interp ++ str " sector"
      , str "Business model: " ++ business_context.business_model.interp
      , str "Company size: " ++ business_context.company_size.interp
      , str "Customer segmentation is critical for targeted marketing" ]
    , recommendations :=
      [ str "Create detailed buyer personas with demographics and psychographics"
      , str "Conduct customer interviews to validate assumptions"
      , str "Analyze competitor customer bases for market insights"
      , str "Use Google Analytics and social media insights for data" ] })
  , (2,
    { title := str "Value Proposition & Messaging"
    , summary := str "Develop compelling messages that clearly communicate your unique value and resonate with your target market\x27s needs."
    , key_points :=
      [ str "Need clear differentiation from competitors"
      , str "Message must address specific customer pain points"
      , str "Brand personality should align with target audience"
      , str "Consistent messaging across all touchpoints is essential" ]
    , recommendations :=
      [ str "Test different value propositions with target customers"
      , str "Create a comprehensive brand style and voice guide"
      , str "Develop elevator pitches for different scenarios"
      , str "A/B test messaging across marketing channels" ] })
  , (3,
    { title := str "Media Channels & Reach"
    , summary := str "Select and optimize the right marketing channels where your target audience is most active and engaged."
    , key_points :=
      [ str "Multi-channel approach increases reach and frequency"
      , str "Content strategy must align with channel characteristics"
      , str "Consistent publishing schedule builds audience trust"
      , str "Channel selection based on audience behavior data" ]
    , recommendations :=
      [ str "Start with 2-3 channels and master them first"
      , str "Create a content calendar with channel-specific content"
      , str "Repurpose content across channels with platform optimization"
      , str "Track performance metrics for each channel monthly" ] })
  , (4,
    { title := str "Lead Capture & Acquisition"
    , summary := str "Implement systems to attract and capture qualified leads through strategic touchpoints and compelling offers."
    , key_points :=
      [ str "Lead magnets must provide genuine value to prospects"
      , str "Multiple capture points increase conversion opportunities"
      , str "Landing page optimization is crucial for conversions"
      , str "Lead quality is more important than quantity" ]
    , recommendations :=
      [ str "Create industry-specific lead magnets (ebooks, tools, templates)"
      , str "Optimize landing pages with clear value propositions"
      , str "Implement progressive profiling to gather lead information"
      , str "Set up lead scoring to prioritize follow-up efforts" ] })
  , (5,
    { title := str "Lead Nurturing & Relationship Building"
    , summary := str "Develop systematic approaches to educate and engage leads through their buyer journey until they\x27re sales-ready."
    , key_points :=
      [ str "Automated email sequences provide consistent touchpoints"
      , str "Educational content builds trust and authority"
      , str "Personalization increases engagement rates significantly"
      , str "Multi-touch nurturing campaigns improve conversion rates" ]
    , recommendations :=
      [ str "Create email drip campaigns based on lead behavior"
      , str "Segment leads by interest, industry, or buying stage"
      , str "Provide valuable educational content consistently"
      , str "Use marketing automation to scale personalization" ] })
  , (6,
    { title := str "Sales Conversion & Closing"
    , summary := str "Optimize your sales process to effectively convert qualified leads into paying customers with clear systems and follow-up."
    , key_points :=
      [ str "Clear sales process reduces friction and confusion"
      , str "Follow-up systems prevent leads from falling through cracks"
      , str "Objection handling preparation improves close rates"
      , str "Sales and marketing alignment is crucial for success" ]
    , recommendations :=
      [ str "Document and standardize your sales process steps"
      , str "Create objection handling scripts and resources"
      , str "Implement CRM system for lead tracking and follow-up"
      , str "Establish clear handoff process between marketing and sales" ] })
  , (7,
    { title := str "Customer Experience & Delivery"
    , summary := str "Ensure exceptional customer experience and service delivery that exceeds expectations and builds loyalty."
    , key_points :=
      [ str "First impressions set the tone for entire relationship"
      , str "Consistent delivery builds trust and reduces churn"
      , str "Customer feedback loops improve service quality"
      , str "Proactive communication prevents issues and builds confidence" ]
    , recommendations :=
      [ str "Create customer onboarding process with clear expectations"
      , str "Implement regular check-ins and progress updates"
      , str "Establish customer feedback collection and response system"
      , str "Document service delivery standards for consistency" ] })
  , (8,
    { title := str "Lifetime Value & Growth"
    , summary := str "Maximize customer lifetime value through retention strategies, upselling, and expanding relationships over time."
    , key_points :=
      [ str "Retention costs significantly less than acquisition"
      , str "Upselling to existing customers has higher success rates"
      , str "Customer success directly impacts lifetime value"
      , str "Regular value delivery maintains customer relationships" ]
    , recommendations :=
      [ str "Create customer success programs focused on outcomes"
      , str "Develop upsell and cross-sell opportunity mapping"
      , str "Implement customer health scoring and intervention triggers"
      , str "Establish regular business reviews with key accounts" ] })
  , (9,
    { title := str "Referral System & Advocacy"
    , summary := str "Build systematic approaches to generate referrals and turn satisfied customers into active brand advocates."
    , key_points :=
      [ str "Satisfied customers are often willing to refer but need prompting"
      , str "Referral systems require clear processes and incentives"
      , str "Customer testimonials and case studies build social proof"
      , str "Word-of-mouth marketing has highest trust and conversion rates" ]
    , recommendations :=
      [ str "Create formal referral program with clear incentives"
      , str "Systematically collect customer testimonials and reviews"
      , str "Develop case studies showcasing customer success stories"
      , str "Make it easy for customers to share and recommend your business" ] }) ]

/-- The `for i in range(1, 10)` loop of `generate_fallback_plan`: copy every
template whose number exists into the squares dictionary. `MarketingSquare`
validation always succeeds here because the template values are well-typed. -/
def fallbackSquares (business_context : Context) : List (Int × MarketingSquare) :=
  (List.range' 1 9).foldl
    (fun squares i =>
      match findVal (square_templates business_context) (Int.ofNat i) with
      | some sq => insertKV squares (Int.ofNat i) sq
      | none => squares)
    []

/-- Model of `generate_fallback_plan`: template-based plan. The `responses` argument
is accepted but unused, as in the source. The construction raises
(`.error`) only if Pydantic rejects the context dictionary. `now` stands
for `datetime.now().isoformat()`. -/
def generate_fallback_plan (responses : List QuestionnaireResponse)
    (business_context : Context) (now : Str) : Except PyErr MarketingPlan :=
  let _ := responses
  match mkBusinessContext business_context with
  | none => .error .validationError
  | some bc =>
    .ok { business_context := bc, squares := fallbackSquares business_context, generated_at := now }

/-! ## `parse_ai_response_to_plan` -/

/-- The fence-stripping prelude of `parse_ai_response_to_plan`
(lines 441-449). -/
def cleanContent (ai_content : Str) : Str :=
  let c0 := pyStrip ai_content
  let c1 := if (str "```json").isPrefixOf c0 then c0.drop 7 else c0
  let c2 := if (str "```").isPrefixOf c1 then c1.drop 3 else c1
  let c3 := if (str "```").isSuffixOf c2 then c2.take (c2.length - 3) else c2
  pyStrip c3

/-- Elements of a JSON array, all of which must be strings (Pydantic
validation of a `List[str]` field). -/
def asStrArr : Json → Option (List Str)
  | .arr es => es.mapM (fun e => match e with | .jstr s => some s | _ => none)
  | _ => none

/-- Build one `MarketingSquare` from a decoded square object: `.get` with
the source defaults, then Pydantic validation (fields must be a string or a
list of strings); `none` models the exception path. -/
def buildSquare (square_id : Str) (square_data : Json) : Option MarketingSquare :=
  match square_data with
  | .obj fields =>
    let titleJ := (findVal fields (str "title")).getD (.jstr (str "Square " ++ square_id))
    let summaryJ := (findVal fields (str "summary")).getD (.jstr (str "Summary not available"))
    let kpJ := (findVal fields (str "key_points")).getD (.arr [])
    let recJ := (findVal fields (str "recommendations")).getD (.arr [])
    match titleJ, summaryJ, asStrArr kpJ, asStrArr recJ with
    | .jstr t, .jstr m, some ps, some rs =>
      some { title := t, summary := m, key_points := ps, recommendations := rs }
    | _, _, _, _ => none
  | _ => none

/-- The square-building loop: `squares[int(square_id)] = MarketingSquare(...)`
over the items of the decoded `squares` object; `none` models any raised
exception (`int()` failure or Pydantic validation failure). -/
def buildSquaresFold : List (Str × Json) → List (Int × MarketingSquare) →
    Option (List (Int × MarketingSquare))
  | [], squares => some squares
  | (square_id, square_data) :: rest, squares =>
    match pyInt square_id, buildSquare square_id square_data with
    | some n, some sq => buildSquaresFold rest (insertKV squares n sq)
    | _, _ => none

/-- Model of `parsed_content.get("squares", {})` followed by the loop over its
items; `none` models the exception raised when `parsed_content` or the
`squares` value is not a dictionary, or when the loop body raises. -/
def parsedSquares (parsed_content : Json) : Option (List (Int × MarketingSquare)) :=
  match parsed_content with
  | .obj fields =>
    match (findVal fields (str "squares")).getD (.obj []) with
    | .obj kvs => buildSquaresFold kvs []
    | _ => none
  | _ => none

/-- Model of `parse_ai_response_to_plan` (lines 438-491): strip fences, decode JSON,
build the squares and the validated context; any failure inside the `try`
block is swallowed and replaced by `generate_fallback_plan([], ctx)`. -/
def parse_ai_response_to_plan (ai_content : Str) (business_context : Context)
    (now : Str) : Except PyErr MarketingPlan :=
  let cleaned_content := cleanContent ai_content
  match json_loads cleaned_content with
  | none => generate_fallback_plan [] business_context now
  | some parsed_content =>
    match parsedSquares parsed_content with
    | none => generate_fallback_plan [] business_context now
    | some squares =>
      match mkBusinessContext business_context with
      | none => generate_fallback_plan [] business_context now
      | some bc =>
        .ok { business_context := bc, squares := squares, generated_at := now }

/-- The entries of the `squares` mapping of the decoded object, as iterated by
the parser loop; empty for shapes on which the loop never runs. -/
def squaresEntries (parsed_content : Json) : List (Str × Json) :=
  match parsed_content with
  | .obj fields =>
    match (findVal fields (str "squares")).getD (.obj []) with
    | .obj kvs => kvs
    | _ => []
  | _ => []

/-- Well-formed square data: an object whose `title`/`summary` fields are
the strings `t`/`m` and whose `key_points`/`recommendations` fields are
string arrays with elements `ps`/`rs`. -/
def squareFields (square_data : Json) (t m : Str) (ps rs : List Str) : Prop :=
  ∃ fields kp rc, square_data = .obj fields
    ∧ findVal fields (str "title") = some (.jstr t)
    ∧ findVal fields (str "summary") = some (.jstr m)
    ∧ findVal fields (str "key_points") = some kp ∧ asStrArr kp = some ps
    ∧ findVal fields (str "recommendations") = some rc ∧ asStrArr rc = some rs

/-! ## Plan store (`plans_store`) -/

/-- The in-memory `plans_store` dictionary. -/
def PlanStore := Str → Option MarketingPlan

/-- The store at process start. -/
def emptyStore : PlanStore := fun _ => none

/-- Model of `plans_store[user_id] = plan` (unconditional overwrite). -/
def putPlan (user_id : Str) (plan : MarketingPlan) (store : PlanStore) : PlanStore :=
  fun k => if k = user_id then some plan else store k

/-- Model of the plan-fetch endpoint GET /api/plan (lines 152-163): 404 when the identifier is
absent, otherwise the stored plan. -/
def get_marketing_plan (user_id : Str) (store : PlanStore) : Except Nat MarketingPlan :=
  match store user_id with
  | none => .error 404
  | some p => .ok p

/-- Modelled from the spec: the repository source under `src/` exposes no
delete endpoint (only the store and its readers/writers are present); §4.6
specifies `delete(id)` — fails with NotFound (404) when the identifier is
absent, otherwise removes the entry. -/
def delete_plan (user_id : Str) (store : PlanStore) : Except Nat PlanStore :=
  match store user_id with
  | none => .error 404
  | some _ => .ok (fun k => if k = user_id then none else store k)

/-! ## Concrete data used by witnesses -/

/-- The validated form of `initial_context` (all defaults). -/
def bc0 : BusinessContext :=
  { industry := str "Not specified"
  , business_model := str "Not specified"
  , company_size := str "Not specified"
  , challenges := []
  , years_in_operation := str "Not specified"
  , geographic_scope := str "Not specified"
  , marketing_maturity := str "Not specified"
  , marketing_budget := str "Not specified"
  , time_availability := str "Not specified"
  , business_goals := [] }

/-- A concrete plan used to exercise the store operations. -/
def planA : MarketingPlan :=
  { business_context := bc0, squares := [], generated_at := str "t" }

/-- One well-formed JSON response: a single square under key "1". -/
def sample_squares_input : Str :=
  str "\x7b\"squares\": \x7b\"1\": \x7b\"title\": \"a\", \"summary\": \"b\", \"key_points\": [\"p\"], \"recommendations\": [\"r\"]\x7d\x7d\x7d"

/-- The decoded `squares` entries of `sample_squares_input`. -/
def sample_squares_kvs : List (Str × Json) :=
  [(str "1", .obj
    [ (str "title", .jstr (str "a"))
    , (str "summary", .jstr (str "b"))
    , (str "key_points", .arr [.jstr (str "p")])
    , (str "recommendations", .arr [.jstr (str "r")]) ])]

/-- A JSON response with well-formed squares "1" through "9" plus one extra
non-numeric key "x"; `int("x")` raises, so the parser falls back. -/
def extra_key_input : Str :=
  str "\x7b\"squares\": \x7b\"1\": \x7b\"title\": \"T\", \"summary\": \"s\", \"key_points\": [], \"recommendations\": []\x7d, \"2\": \x7b\"title\": \"T\", \"summary\": \"s\", \"key_points\": [], \"recommendations\": []\x7d, \"3\": \x7b\"title\": \"T\", \"summary\": \"s\", \"key_points\": [], \"recommendations\": []\x7d, \"4\": \x7b\"title\": \"T\", \"summary\": \"s\", \"key_points\": [], \"recommendations\": []\x7d, \"5\": \x7b\"title\": \"T\", \"summary\": \"s\", \"key_points\": [], \"recommendations\": []\x7d, \"6\": \x7b\"title\": \"T\", \"summary\": \"s\", \"key_points\": [], \"recommendations\": []\x7d, \"7\": \x7b\"title\": \"T\", \"summary\": \"s\", \"key_points\": [], \"recommendations\": []\x7d, \"8\": \x7b\"title\": \"T\", \"summary\": \"s\", \"key_points\": [], \"recommendations\": []\x7d, \"9\": \x7b\"title\": \"T\", \"summary\": \"s\", \"key_points\": [], \"recommendations\": []\x7d, \"x\": 0\x7d\x7d"

/-- The decoded `squares` entries of `extra_key_input`. -/
def extra_key_kvs : List (Str × Json) :=
  [ (str "1", .obj [(str "title", .jstr (str "T")), (str "summary", .jstr (str "s")), (str "key_points", .arr []), (str "recommendations", .arr [])]),
    (str "2", .obj [(str "title", .jstr (str "T")), (str "summary", .jstr (str "s")), (str "key_points", .arr []), (str "recommendations", .arr [])]),
    (str "3", .obj [(str "title", .jstr (str "T")), (str "summary", .jstr (str "s")), (str "key_points", .arr []), (str "recommendations", .arr [])]),
    (str "4", .obj [(str "title", .jstr (str "T")), (str "summary", .jstr (str "s")), (str "key_points", .arr []), (str "recommendations", .arr [])]),
    (str "5", .obj [(str "title", .jstr (str "T")), (str "summary", .jstr (str "s")), (str "key_points", .arr []), (str "recommendations", .arr [])]),
    (str "6", .obj [(str "title", .jstr (str "T")), (str "summary", .jstr (str "s")), (str "key_points", .arr []), (str "recommendations", .arr [])]),
    (str "7", .obj [(str "title", .jstr (str "T")), (str "summary", .jstr (str "s")), (str "key_points", .arr []), (str "recommendations", .arr [])]),
    (str "8", .obj [(str "title", .jstr (str "T")), (str "summary", .jstr (str "s")), (str "key_points", .arr []), (str "recommendations", .arr [])]),
    (str "9", .obj [(str "title", .jstr (str "T")), (str "summary", .jstr (str "s")), (str "key_points", .arr []), (str "recommendations", .arr [])]),
    (str "x", .num (str "0")) ]

/-! ## Theorems -/

theorem fallbackSquares_eq_templates (business_context : Context) :
    fallbackSquares business_context = square_templates business_context := rfl

theorem mkBusinessContext_initial : mkBusinessContext initial_context = some bc0 := rfl

theorem findVal_insertKV_self {κ ν : Type} [DecidableEq κ] (l : List (κ × ν)) (k : κ) (v : ν) :
    findVal (insertKV l k v) k = some v := by
  induction l with
  | nil => simp [insertKV, findVal]
  | cons kv rest ih =>
    obtain ⟨k0, v0⟩ := kv
    by_cases h : k0 = k <;> simp [insertKV, findVal, h, ih]

theorem findVal_insertKV_ne {κ ν : Type} [DecidableEq κ] (l : List (κ × ν)) (k k' : κ) (v : ν)
    (h : k' ≠ k) : findVal (insertKV l k v) k' = findVal l k' := by
  induction l with
  | nil => simp [insertKV, findVal, Ne.symm h]
  | cons kv rest ih =>
    obtain ⟨k0, v0⟩ := kv
    by_cases h0 : k0 = k
    · have hne : k0 ≠ k' := by rw [h0]; exact Ne.symm h
      simp [insertKV, h0, findVal, hne, Ne.symm h]
    · simp [insertKV, h0, findVal, ih]

/-- Claim C7: the square classifier is a total deterministic function: for
every identifier string it returns exactly one integer in the range [0,9],
and applying it twice to the same identifier string yields the same
result. -/
theorem claim7_classifier_total_deterministic (question_id : Str) :
    (0 ≤ determine_square_from_question question_id
      ∧ determine_square_from_question question_id ≤ 9)
    ∧ determine_square_from_question question_id
        = determine_square_from_question question_id := by
  refine ⟨?_, rfl⟩
  simp only [determine_square_from_question]
  split_ifs <;> norm_num

/-- Claim C9: fetching a stored plan fails with 404 exactly when the
identifier is absent from the store, and otherwise returns the plan most
recently stored under that identifier (a later `put` under the same key
wins, and a `put` under a different key does not affect the result). -/
theorem claim9_get_plan_lookup (store : PlanStore) (user_id : Str) :
    (get_marketing_plan user_id store = .error 404 ↔ store user_id = none)
    ∧ (∀ plan, get_marketing_plan user_id (putPlan user_id plan store) = .ok plan)
    ∧ (∀ other plan, other ≠ user_id →
        get_marketing_plan user_id (putPlan other plan store)
          = get_marketing_plan user_id store) := by
  refine ⟨?_, ?_, ?_⟩
  · unfold get_marketing_plan
    cases h : store user_id <;> simp [h]
  · intro plan
    unfold get_marketing_plan putPlan
    simp
  · intro other plan hne
    unfold get_marketing_plan putPlan
    simp [Ne.symm hne]

theorem claim9_get_plan_lookup_witness :
    get_marketing_plan (str "u") emptyStore = .error 404
    ∧ get_marketing_plan (str "u") (putPlan (str "u") planA emptyStore) = .ok planA
    ∧ get_marketing_plan (str "u") (putPlan (str "v") planA emptyStore) = .error 404 := by
  refine ⟨(claim9_get_plan_lookup emptyStore (str "u")).1.mpr rfl,
    (claim9_get_plan_lookup emptyStore (str "u")).2.1 planA, ?_⟩
  rw [(claim9_get_plan_lookup emptyStore (str "u")).2.2 (str "v") planA (by decide)]
  exact (claim9_get_plan_lookup emptyStore (str "u")).1.mpr rfl

/-- Claim C4: deleting a never-stored identifier fails with 404, and
deleting a stored identifier removes the plan so that a subsequent get on
the same identifier also fails with 404. -/
theorem claim4_delete_plan (store : PlanStore) (user_id : Str) :
    (store user_id = none → delete_plan user_id store = .error 404)
    ∧ (∀ plan, ∃ store2,
        delete_plan user_id (putPlan user_id plan store) = .ok store2
        ∧ get_marketing_plan user_id store2 = .error 404) := by
  constructor
  · intro h
    unfold delete_plan
    rw [h]
  · intro plan
    refine ⟨fun k => if k = user_id then none else putPlan user_id plan store k, ?_, ?_⟩
    · unfold delete_plan putPlan
      simp
    · unfold get_marketing_plan
      simp

theorem claim4_delete_plan_witness :
    delete_plan (str "u") emptyStore = .error 404
    ∧ ∃ store2,
        delete_plan (str "u") (putPlan (str "u") planA emptyStore) = .ok store2
        ∧ get_marketing_plan (str "u") store2 = .error 404 :=
  ⟨(claim4_delete_plan emptyStore (str "u")).1 rfl,
    (claim4_delete_plan emptyStore (str "u")).2 planA⟩

/-- Claim C5, counterexample: a second exact `primary-challenges` answer
overwrites the first instead of appending — the extracted challenges list
is ["B"], not the ["A", "B"] the claim requires. -/
theorem claim5_counterexample :
    (extract_business_context
      [⟨str "primary-challenges", .s (str "A")⟩,
       ⟨str "primary-challenges", .s (str "B")⟩]).challenges = [str "B"]
    ∧ (extract_business_context
      [⟨str "primary-challenges", .s (str "A")⟩,
       ⟨str "primary-challenges", .s (str "B")⟩]).challenges ≠ [str "A", str "B"] := by
  decide

/-- Claim C5, amended: list-valued fields accept a single string (wrapped
into a one-element list) or a list; a match through the legacy
`challenge`-substring heuristic appends to the current challenges, while an
exact `primary-challenges` or `business-goals` match replaces the field
with the new answer (overwrite, independent of the previous value). -/
theorem claim5_amended (context : Context) (v : Str) (vs : List Str) :
    (extractStep context ⟨str "primary-challenges", .s v⟩).challenges = [v]
    ∧ (extractStep context ⟨str "primary-challenges", .l vs⟩).challenges = vs
    ∧ (extractStep context ⟨str "business-goals", .s v⟩).business_goals = [v]
    ∧ (extractStep context ⟨str "business-goals", .l vs⟩).business_goals = vs
    ∧ (extractStep context ⟨str "the-challenge", .s v⟩).challenges
        = context.challenges ++ [v]
    ∧ (extractStep context ⟨str "the-challenge", .l vs⟩).challenges
        = context.challenges ++ vs :=
  ⟨rfl, rfl, rfl, rfl, rfl, rfl⟩

/-- Claim C2: for every input text that is not valid JSON after fence
stripping and every (well-typed) business context, the parser returns a
plan — never raises — and every square equals the corresponding fallback
template square with the context fields interpolated. -/
theorem claim2_invalid_json_falls_back (s : Str) (context : Context) (now : Str)
    (bc : BusinessContext) (hctx : mkBusinessContext context = some bc)
    (hjson : json_loads (cleanContent s) = none) :
    parse_ai_response_to_plan s context now =
      .ok { business_context := bc
          , squares := square_templates context
          , generated_at := now } := by
  simp only [parse_ai_response_to_plan, hjson, generate_fallback_plan, hctx]
  rfl

theorem claim2_invalid_json_falls_back_witness :
    json_loads (cleanContent (str "hello")) = none
    ∧ parse_ai_response_to_plan (str "hello") initial_context (str "t") =
        .ok { business_context := bc0
            , squares := square_templates initial_context
            , generated_at := str "t" } :=
  ⟨rfl, claim2_invalid_json_falls_back (str "hello") initial_context (str "t") bc0 rfl rfl⟩

/-- Claim C10: for every responses list and every (well-typed)
business-context dictionary, the fallback plan generator returns a plan
whose squares mapping has exactly the keys 1 through 9, each with its
canonical fixed title (square 1 "Target Market & Customer Avatar" through
square 9 "Referral System & Advocacy"). -/
theorem claim10_fallback_nine_squares (responses : List QuestionnaireResponse)
    (context : Context) (now : Str) (bc : BusinessContext)
    (hctx : mkBusinessContext context = some bc) :
    ∃ p, generate_fallback_plan responses context now = .ok p
      ∧ p.squares.map Prod.fst = [1, 2, 3, 4, 5, 6, 7, 8, 9]
      ∧ p.squares.map (fun kv => (kv.1, kv.2.title)) =
        [ (1, str "Target Market & Customer Avatar")
        , (2, str "Value Proposition & Messaging")
        , (3, str "Media Channels & Reach")
        , (4, str "Lead Capture & Acquisition")
        , (5, str "Lead Nurturing & Relationship Building")
        , (6, str "Sales Conversion & Closing")
        , (7, str "Customer Experience & Delivery")
        , (8, str "Lifetime Value & Growth")
        , (9, str "Referral System & Advocacy") ] := by
  refine ⟨{ business_context := bc
          , squares := fallbackSquares context
          , generated_at := now }, ?_, rfl, rfl⟩
  unfold generate_fallback_plan
  rw [hctx]

theorem claim10_fallback_nine_squares_witness :
    ∃ p, generate_fallback_plan [] initial_context (str "t") = .ok p
      ∧ p.squares.map Prod.fst = [1, 2, 3, 4, 5, 6, 7, 8, 9]
      ∧ p.squares.map (fun kv => (kv.1, kv.2.title)) =
        [ (1, str "Target Market & Customer Avatar")
        , (2, str "Value Proposition & Messaging")
        , (3, str "Media Channels & Reach")
        , (4, str "Lead Capture & Acquisition")
        , (5, str "Lead Nurturing & Relationship Building")
        , (6, str "Sales Conversion & Closing")
        , (7, str "Customer Experience & Delivery")
        , (8, str "Lifetime Value & Growth")
        , (9, str "Referral System & Advocacy") ] :=
  claim10_fallback_nine_squares [] initial_context (str "t") bc0 rfl
/-- Per-field preservation: a response whose question id is not matched
to a given context field leaves that field of the context unchanged. -/
theorem extractStep_char (context : Context) (r : QuestionnaireResponse) :
    (matchedField r.question_id ≠ some CtxField.industry →
      (extractStep context r).industry = context.industry)
    ∧ (matchedField r.question_id ≠ some CtxField.business_model →
      (extractStep context r).business_model = context.business_model)
    ∧ (matchedField r.question_id ≠ some CtxField.company_size →
      (extractStep context r).company_size = context.company_size)
    ∧ (matchedField r.question_id ≠ some CtxField.challenges →
      (extractStep context r).challenges = context.challenges)
    ∧ (matchedField r.question_id ≠ some CtxField.years_in_operation →
      (extractStep context r).years_in_operation = context.years_in_operation)
    ∧ (matchedField r.question_id ≠ some CtxField.geographic_scope →
      (extractStep context r).geographic_scope = context.geographic_scope)
    ∧ (matchedField r.question_id ≠ some CtxField.marketing_maturity →
      (extractStep context r).marketing_maturity = context.marketing_maturity)
    ∧ (matchedField r.question_id ≠ some CtxField.marketing_budget →
      (extractStep context r).marketing_budget = context.marketing_budget)
    ∧ (matchedField r.question_id ≠ some CtxField.time_availability →
      (extractStep context r).time_availability = context.time_availability)
    ∧ (matchedField r.question_id ≠ some CtxField.business_goals →
      (extractStep context r).business_goals = context.business_goals) := by
  simp only [extractStep, matchedField]
  by_cases c1 : lowerStr r.question_id = str "industry"
  · simp only [if_pos c1]
    simp
  · simp only [if_neg c1]
    by_cases c2 : lowerStr r.question_id = str "business-model"
    · simp only [if_pos c2]
      simp
    · simp only [if_neg c2]
      by_cases c3 : lowerStr r.question_id = str "company-size"
      · simp only [if_pos c3]
        simp
      · simp only [if_neg c3]
        by_cases c4 : lowerStr r.question_id = str "years-in-operation"
        · simp only [if_pos c4]
          simp
        · simp only [if_neg c4]
          by_cases c5 : lowerStr r.question_id = str "geographic-scope"
          · simp only [if_pos c5]
            simp
          · simp only [if_neg c5]
            by_cases c6 : lowerStr r.question_id = str "primary-challenges"
            · simp only [if_pos c6]
              simp
            · simp only [if_neg c6]
              by_cases c7 : lowerStr r.question_id = str "marketing-maturity"
              · simp only [if_pos c7]
                simp
              · simp only [if_neg c7]
                by_cases c8 : lowerStr r.question_id = str "marketing-budget"
                · simp only [if_pos c8]
                  simp
                · simp only [if_neg c8]
                  by_cases c9 : lowerStr r.question_id = str "time-availability"
                  · simp only [if_pos c9]
                    simp
                  · simp only [if_neg c9]
                    by_cases c10 : lowerStr r.question_id = str "business-goals"
                    · simp only [if_pos c10]
                      simp
                    · simp only [if_neg c10]
                      by_cases c11 : isSubstr (str "industry") (lowerStr r.question_id) = true
                      · simp only [if_pos c11]
                        simp
                      · simp only [if_neg c11]
                        by_cases c12 : isSubstr (str "model") (lowerStr r.question_id) = true
                        · simp only [if_pos c12]
                          simp
                        · simp only [if_neg c12]
                          by_cases c13 : isSubstr (str "size") (lowerStr r.question_id) = true
                          · simp only [if_pos c13]
                            simp
                          · simp only [if_neg c13]
                            by_cases c14 : isSubstr (str "challenge") (lowerStr r.question_id) = true
                            · simp only [if_pos c14]
                              simp
                            · simp only [if_neg c14]
                              simp

/-- Folding the extraction step over responses none of which match a given
observable leaves that observable of the context unchanged. -/
theorem foldl_extractStep_keeps {α : Type} (f : Context → α)
    (P : QuestionnaireResponse → Prop)
    (hstep : ∀ context r, P r → f (extractStep context r) = f context) :
    ∀ (rs : List QuestionnaireResponse) (context : Context), (∀ r ∈ rs, P r) →
      f (rs.foldl extractStep context) = f context := by
  intro rs
  induction rs with
  | nil => intro context _; rfl
  | cons r t ih =>
    intro context h
    rw [List.foldl_cons, ih (extractStep context r) (fun x hx => h x (List.mem_cons_of_mem r hx)),
      hstep context r (h r (List.mem_cons_self r t))]

/-- Claim C8: every BusinessContext field for which no answer matches
(exactly or by the legacy substring heuristics) is left at the sentinel
"Not specified" in the extracted context, or at the empty list for the
list-valued fields (challenges, business goals). -/
theorem claim8_unmatched_fields_default (rs : List QuestionnaireResponse) :
    ((∀ r ∈ rs, matchedField r.question_id ≠ some CtxField.industry) →
      (extract_business_context rs).industry = .s (str "Not specified"))
    ∧ ((∀ r ∈ rs, matchedField r.question_id ≠ some CtxField.business_model) →
      (extract_business_context rs).business_model = .s (str "Not specified"))
    ∧ ((∀ r ∈ rs, matchedField r.question_id ≠ some CtxField.company_size) →
      (extract_business_context rs).company_size = .s (str "Not specified"))
    ∧ ((∀ r ∈ rs, matchedField r.question_id ≠ some CtxField.challenges) →
      (extract_business_context rs).challenges = [])
    ∧ ((∀ r ∈ rs, matchedField r.question_id ≠ some CtxField.years_in_operation) →
      (extract_business_context rs).years_in_operation = .s (str "Not specified"))
    ∧ ((∀ r ∈ rs, matchedField r.question_id ≠ some CtxField.geographic_scope) →
      (extract_business_context rs).geographic_scope = .s (str "Not specified"))
    ∧ ((∀ r ∈ rs, matchedField r.question_id ≠ some CtxField.marketing_maturity) →
      (extract_business_context rs).marketing_maturity = .s (str "Not specified"))
    ∧ ((∀ r ∈ rs, matchedField r.question_id ≠ some CtxField.marketing_budget) →
      (extract_business_context rs).marketing_budget = .s (str "Not specified"))
    ∧ ((∀ r ∈ rs, matchedField r.question_id ≠ some CtxField.time_availability) →
      (extract_business_context rs).time_availability = .s (str "Not specified"))
    ∧ ((∀ r ∈ rs, matchedField r.question_id ≠ some CtxField.business_goals) →
      (extract_business_context rs).business_goals = []) := by
  refine ⟨?_, ?_, ?_, ?_, ?_, ?_, ?_, ?_, ?_, ?_⟩ <;> intro h
  · exact foldl_extractStep_keeps (fun c => c.industry) _
      (fun c r hr => (extractStep_char c r).1 hr) rs initial_context h
  · exact foldl_extractStep_keeps (fun c => c.business_model) _
      (fun c r hr => (extractStep_char c r).2.1 hr) rs initial_context h
  · exact foldl_extractStep_keeps (fun c => c.company_size) _
      (fun c r hr => (extractStep_char c r).2.2.1 hr) rs initial_context h
  · exact foldl_extractStep_keeps (fun c => c.challenges) _
      (fun c r hr => (extractStep_char c r).2.2.2.1 hr) rs initial_context h
  · exact foldl_extractStep_keeps (fun c => c.years_in_operation) _
      (fun c r hr => (extractStep_char c r).2.2.2.2.1 hr) rs initial_context h
  · exact foldl_extractStep_keeps (fun c => c.geographic_scope) _
      (fun c r hr => (extractStep_char c r).2.2.2.2.2.1 hr) rs initial_context h
  · exact foldl_extractStep_keeps (fun c => c.marketing_maturity) _
      (fun c r hr => (extractStep_char c r).2.2.2.2.2.2.1 hr) rs initial_context h
  · exact foldl_extractStep_keeps (fun c => c.marketing_budget) _
      (fun c r hr => (extractStep_char c r).2.2.2.2.2.2.2.1 hr) rs initial_context h
  · exact foldl_extractStep_keeps (fun c => c.time_availability) _
      (fun c r hr => (extractStep_char c r).2.2.2.2.2.2.2.2.1 hr) rs initial_context h
  · exact foldl_extractStep_keeps (fun c => c.business_goals) _
      (fun c r hr => (extractStep_char c r).2.2.2.2.2.2.2.2.2 hr) rs initial_context h

theorem claim8_unmatched_fields_default_witness :
    (extract_business_context [⟨str "zzz", .s (str "x")⟩]).industry = .s (str "Not specified")
    ∧ (extract_business_context [⟨str "zzz", .s (str "x")⟩]).business_model = .s (str "Not specified")
    ∧ (extract_business_context [⟨str "zzz", .s (str "x")⟩]).company_size = .s (str "Not specified")
    ∧ (extract_business_context [⟨str "zzz", .s (str "x")⟩]).challenges = []
    ∧ (extract_business_context [⟨str "zzz", .s (str "x")⟩]).years_in_operation = .s (str "Not specified")
    ∧ (extract_business_context [⟨str "zzz", .s (str "x")⟩]).geographic_scope = .s (str "Not specified")
    ∧ (extract_business_context [⟨str "zzz", .s (str "x")⟩]).marketing_maturity = .s (str "Not specified")
    ∧ (extract_business_context [⟨str "zzz", .s (str "x")⟩]).marketing_budget = .s (str "Not specified")
    ∧ (extract_business_context [⟨str "zzz", .s (str "x")⟩]).time_availability = .s (str "Not specified")
    ∧ (extract_business_context [⟨str "zzz", .s (str "x")⟩]).business_goals = [] := by
  refine ⟨(claim8_unmatched_fields_default _).1 ?_,
    (claim8_unmatched_fields_default _).2.1 ?_,
    (claim8_unmatched_fields_default _).2.2.1 ?_,
    (claim8_unmatched_fields_default _).2.2.2.1 ?_,
    (claim8_unmatched_fields_default _).2.2.2.2.1 ?_,
    (claim8_unmatched_fields_default _).2.2.2.2.2.1 ?_,
    (claim8_unmatched_fields_default _).2.2.2.2.2.2.1 ?_,
    (claim8_unmatched_fields_default _).2.2.2.2.2.2.2.1 ?_,
    (claim8_unmatched_fields_default _).2.2.2.2.2.2.2.2.1 ?_,
    (claim8_unmatched_fields_default _).2.2.2.2.2.2.2.2.2 ?_⟩ <;> decide

/-- If no entry of the squares object is keyed (as a Python int) by `n`,
the square-building loop leaves key `n` exactly as it was in the
accumulator. -/
theorem buildSquaresFold_absent (n : Int) :
    ∀ (kvs : List (Str × Json)) (acc sq),
      buildSquaresFold kvs acc = some sq →
      (∀ kv ∈ kvs, pyInt kv.1 ≠ some n) → findVal sq n = findVal acc n := by
  intro kvs
  induction kvs with
  | nil =>
    intro acc sq h _
    cases h
    rfl
  | cons kv rest ih =>
    intro acc sq h hall
    obtain ⟨k, v⟩ := kv
    unfold buildSquaresFold at h
    cases hk : pyInt k with
    | none => rw [hk] at h; cases h
    | some m =>
      cases hb : buildSquare k v with
      | none => rw [hk, hb] at h; cases h
      | some sq0 =>
        rw [hk, hb] at h
        have hmn : n ≠ m := by
          intro he
          exact (hall (k, v) (List.mem_cons_self _ _)) (by rw [hk, he])
        rw [ih _ _ h (fun x hx => hall x (List.mem_cons_of_mem _ hx)),
          findVal_insertKV_ne _ _ _ _ hmn]

/-- Claim C1, counterexample: the input `{}` decodes to a JSON object, yet
the parser returns a plan whose squares mapping is empty — square 1 (and
every other square) is left out rather than synthesized from the fallback
template. -/
theorem claim1_counterexample :
    json_loads (cleanContent (str "\x7b\x7d")) = some (.obj [])
    ∧ parse_ai_response_to_plan (str "\x7b\x7d") initial_context (str "t") =
        .ok { business_context := bc0, squares := [], generated_at := str "t" }
    ∧ findVal ([] : List (Int × MarketingSquare)) 1 = none :=
  ⟨rfl, rfl, rfl⟩

/-- Claim C1, amended: when the decoded JSON object is processed without
raising, the plan carries exactly the squares built from the keys present
in the decoded object: any square number absent from the decoded object is
left out of the plan's squares mapping (not synthesized from the fallback
template). -/
theorem claim1_amended (s : Str) (context : Context) (now : Str) (j : Json)
    (bc : BusinessContext) (sqs : List (Int × MarketingSquare))
    (hdecode : json_loads (cleanContent s) = some j)
    (hsq : parsedSquares j = some sqs)
    (hctx : mkBusinessContext context = some bc) :
    parse_ai_response_to_plan s context now =
      .ok { business_context := bc, squares := sqs, generated_at := now }
    ∧ ∀ n : Int, (∀ kv ∈ squaresEntries j, pyInt kv.1 ≠ some n) →
        findVal sqs n = none := by
  constructor
  · simp only [parse_ai_response_to_plan, hdecode, hsq, hctx]
  · intro n habs
    cases j with
    | obj fields =>
      simp only [parsedSquares] at hsq
      simp only [squaresEntries] at habs
      cases hg : (findVal fields (str "squares")).getD (.obj []) with
      | obj kvs =>
        rw [hg] at hsq habs
        exact buildSquaresFold_absent n kvs [] sqs hsq habs
      | null => rw [hg] at hsq; simp at hsq
      | bool b => rw [hg] at hsq; simp at hsq
      | num lx => rw [hg] at hsq; simp at hsq
      | jstr t => rw [hg] at hsq; simp at hsq
      | arr es => rw [hg] at hsq; simp at hsq
    | null => simp [parsedSquares] at hsq
    | bool b => simp [parsedSquares] at hsq
    | num lx => simp [parsedSquares] at hsq
    | jstr t => simp [parsedSquares] at hsq
    | arr es => simp [parsedSquares] at hsq

theorem claim1_amended_witness :
    parse_ai_response_to_plan (str "\x7b\"squares\": \x7b\x7d\x7d") initial_context (str "t") =
      .ok { business_context := bc0, squares := [], generated_at := str "t" }
    ∧ findVal ([] : List (Int × MarketingSquare)) 1 = none := by
  have h := claim1_amended (str "\x7b\"squares\": \x7b\x7d\x7d") initial_context (str "t")
    (.obj [(str "squares", .obj [])]) bc0 [] rfl rfl rfl
  exact ⟨h.1, h.2 1 (by decide)⟩

/-- Well-formed square data builds exactly the square with those values. -/
theorem buildSquare_of_fields (square_id : Str) (square_data : Json) (t m : Str)
    (ps rs : List Str) (h : squareFields square_data t m ps rs) :
    buildSquare square_id square_data =
      some { title := t, summary := m, key_points := ps, recommendations := rs } := by
  obtain ⟨fields, kp, rc, hobj, ht, hm, hkp, hps, hrc, hrs⟩ := h
  subst hobj
  simp only [buildSquare, ht, hm, hkp, hrc, Option.getD_some, hps, hrs]

/-- The square-building loop succeeds when every entry has an integer key
and well-formed square data. -/
theorem buildSquaresFold_total :
    ∀ (kvs : List (Str × Json)) (acc : List (Int × MarketingSquare)),
      (∀ kv ∈ kvs, ∃ (n : Int) (t m : Str) (ps rs : List Str),
        pyInt kv.1 = some n ∧ squareFields kv.2 t m ps rs) →
      ∃ sq, buildSquaresFold kvs acc = some sq := by
  intro kvs
  induction kvs with
  | nil => intro acc _; exact ⟨acc, rfl⟩
  | cons kv rest ih =>
    intro acc hall
    obtain ⟨k, v⟩ := kv
    obtain ⟨n, t, m, ps, rs, hn, hf⟩ := hall (k, v) (List.mem_cons_self _ _)
    obtain ⟨sq, hsq⟩ := ih (insertKV acc n ⟨t, m, ps, rs⟩)
      (fun x hx => hall x (List.mem_cons_of_mem _ hx))
    refine ⟨sq, ?_⟩
    unfold buildSquaresFold
    rw [hn, buildSquare_of_fields k v t m ps rs hf]
    exact hsq

/-- If every entry keyed by `n` builds the same square `b`, and some entry
is keyed by `n` (or the accumulator already holds `b` at `n`), the loop
result holds `b` at `n`. -/
theorem buildSquaresFold_mem (n : Int) (b : MarketingSquare) :
    ∀ (kvs : List (Str × Json)) (acc sq),
      buildSquaresFold kvs acc = some sq →
      (∀ kv ∈ kvs, pyInt kv.1 = some n → buildSquare kv.1 kv.2 = some b) →
      ((∃ kv ∈ kvs, pyInt kv.1 = some n) ∨ findVal acc n = some b) →
      findVal sq n = some b := by
  intro kvs
  induction kvs with
  | nil =>
    intro acc sq h _ hex
    cases h
    rcases hex with ⟨kv, hkv, _⟩ | hacc
    · cases hkv
    · exact hacc
  | cons kv rest ih =>
    intro acc sq h hall hex
    obtain ⟨k, v⟩ := kv
    unfold buildSquaresFold at h
    cases hk : pyInt k with
    | none => rw [hk] at h; cases h
    | some m =>
      cases hb : buildSquare k v with
      | none => rw [hk, hb] at h; cases h
      | some sq0 =>
        rw [hk, hb] at h
        by_cases hmn : m = n
        · subst hmn
          have hb0 : sq0 = b := by
            have := hall (k, v) (List.mem_cons_self _ _) hk
            rw [hb] at this
            exact Option.some.inj this
          subst hb0
          exact ih _ _ h (fun x hx => hall x (List.mem_cons_of_mem _ hx))
            (Or.inr (findVal_insertKV_self acc m sq0))
        · refine ih _ _ h (fun x hx => hall x (List.mem_cons_of_mem _ hx)) ?_
          rcases hex with ⟨kv1, hkv1, hkey1⟩ | hacc
          · rcases List.mem_cons.mp hkv1 with heq | hmem
            · rw [heq] at hkey1
              rw [hk] at hkey1
              exact absurd (Option.some.inj hkey1) hmn
            · exact Or.inl ⟨kv1, hmem, hkey1⟩
          · refine Or.inr ?_
            rw [findVal_insertKV_ne acc m n sq0 (fun he => hmn he.symm)]
            exact hacc

/-- Claim C3, amended: for input decoding to an object whose `squares`
entries all carry integer keys (distinct as integers) and well-formed
title/summary/key_points/recommendations fields, the output square for each
key carries exactly the input values. (With any extra non-integer key the
whole plan silently falls back to the templates instead.) -/
theorem claim3_amended (s : Str) (context : Context) (now : Str) (bc : BusinessContext)
    (fields kvs : List (Str × Json))
    (hctx : mkBusinessContext context = some bc)
    (hdecode : json_loads (cleanContent s) = some (.obj fields))
    (hsq : findVal fields (str "squares") = some (.obj kvs))
    (hwf : ∀ kv ∈ kvs, ∃ (n : Int) (t m : Str) (ps rs : List Str),
      pyInt kv.1 = some n ∧ squareFields kv.2 t m ps rs)
    (hinj : ∀ kv ∈ kvs, ∀ kw ∈ kvs, pyInt kv.1 = pyInt kw.1 → kv = kw) :
    ∃ squares, parse_ai_response_to_plan s context now =
        .ok { business_context := bc, squares := squares, generated_at := now }
      ∧ ∀ kv ∈ kvs, ∀ (n : Int) (t m : Str) (ps rs : List Str),
          pyInt kv.1 = some n → squareFields kv.2 t m ps rs →
          findVal squares n =
            some { title := t, summary := m, key_points := ps, recommendations := rs } := by
  obtain ⟨sq, hfold⟩ := buildSquaresFold_total kvs [] hwf
  have hps : parsedSquares (.obj fields) = some sq := by
    simp only [parsedSquares, hsq, Option.getD_some]
    exact hfold
  refine ⟨sq, ?_, ?_⟩
  · simp only [parse_ai_response_to_plan, hdecode, hps, hctx]
  · intro kv hkv n t m ps rs hn hf
    refine buildSquaresFold_mem n _ kvs [] sq hfold ?_ (Or.inl ⟨kv, hkv, hn⟩)
    intro kw hkw hkn
    have hkveq : kw = kv := hinj kw hkw kv hkv (by rw [hkn, hn])
    rw [hkveq]
    exact buildSquare_of_fields kv.1 kv.2 t m ps rs hf

theorem claim3_amended_witness :
    ∃ squares, parse_ai_response_to_plan sample_squares_input initial_context (str "t") =
        .ok { business_context := bc0, squares := squares, generated_at := str "t" }
      ∧ ∀ kv ∈ sample_squares_kvs, ∀ (n : Int) (t m : Str) (ps rs : List Str),
          pyInt kv.1 = some n → squareFields kv.2 t m ps rs →
          findVal squares n =
            some { title := t, summary := m, key_points := ps, recommendations := rs } := by
  refine claim3_amended sample_squares_input initial_context (str "t") bc0
    [(str "squares", .obj sample_squares_kvs)] sample_squares_kvs rfl rfl rfl ?_ ?_
  · intro kv hkv
    rw [List.mem_singleton.mp hkv]
    exact ⟨1, str "a", str "b", [str "p"], [str "r"], rfl,
      ⟨_, _, _, rfl, rfl, rfl, rfl, rfl, rfl, rfl⟩⟩
  · intro kv hkv kw hkw _
    rw [List.mem_singleton.mp hkv, List.mem_singleton.mp hkw]

set_option maxRecDepth 100000 in
/-- Claim C3, counterexample: a response whose `squares` object carries the
nine well-formed squares "1" through "9" and one extra key "x" decodes
fine, yet the parser discards every input value and returns the fallback
templates (square 1 is the template, not the input's title "T"). -/
theorem claim3_counterexample :
    json_loads (cleanContent extra_key_input) =
      some (.obj [(str "squares", .obj extra_key_kvs)])
    ∧ parse_ai_response_to_plan extra_key_input initial_context (str "t") =
        .ok { business_context := bc0
            , squares := square_templates initial_context
            , generated_at := str "t" }
    ∧ findVal (square_templates initial_context) 1 ≠
        some { title := str "T", summary := str "s", key_points := [], recommendations := [] } :=
  ⟨rfl, rfl, by decide⟩

/-- The function `dropWhile` leaves a prefix of a `dropWhile`-fixed list unchanged. -/
theorem dropWhile_eq_self_of_prefix {p : Char → Bool} {x y : Str} (hx : x <+: y)
    (hy : y.dropWhile p = y) : x.dropWhile p = x := by
  cases x with
  | nil => rfl
  | cons a t =>
    obtain ⟨r, hr⟩ := hx
    cases y with
    | nil => cases hr
    | cons b u =>
      have hab : a = b := by
        rw [List.cons_append] at hr
        exact (List.cons.injEq _ _ _ _ ▸ hr).1
      subst hab
      by_cases hpa : p a
      · rw [List.dropWhile_cons, if_pos hpa] at hy
        have hsfx : (u.dropWhile p).length ≤ u.length := (List.dropWhile_suffix p).length_le
        have hlen := congrArg List.length hy
        simp at hlen
        omega
      · rw [List.dropWhile_cons, if_neg hpa]

theorem pyStrip_eq_rdropWhile (s : Str) :
    pyStrip s = List.rdropWhile isPySpace (s.dropWhile isPySpace) := rfl

theorem pyStrip_idem (s : Str) : pyStrip (pyStrip s) = pyStrip s := by
  rw [pyStrip_eq_rdropWhile, pyStrip_eq_rdropWhile,
    dropWhile_eq_self_of_prefix (List.rdropWhile_prefix _ _) (List.dropWhile_idempotent _ _),
    List.rdropWhile_idempotent]

theorem mem_of_mem_pyStrip {a : Char} {s : Str} (h : a ∈ pyStrip s) : a ∈ s := by
  rw [pyStrip_eq_rdropWhile] at h
  exact (List.dropWhile_suffix _).sublist.subset
    ((List.rdropWhile_prefix _ _).sublist.subset h)

/-- A needle containing a backtick is no prefix of a backtick-free string. -/
theorem not_prefixOf_of_no_backtick (f l : Str) (hf : ('`' : Char) ∈ f)
    (hl : ('`' : Char) ∉ l) : f.isPrefixOf l = false := by
  by_contra h
  rw [Bool.not_eq_false] at h
  exact hl ((List.isPrefixOf_iff_prefix.mp h).sublist.subset hf)

/-- A needle containing a backtick is no suffix of a backtick-free string. -/
theorem not_suffixOf_of_no_backtick (f l : Str) (hf : ('`' : Char) ∈ f)
    (hl : ('`' : Char) ∉ l) : f.isSuffixOf l = false := by
  by_contra h
  rw [Bool.not_eq_false] at h
  exact hl ((List.isSuffixOf_iff_suffix.mp h).sublist.subset hf)

theorem isPrefixOf_append_self (l r : Str) : l.isPrefixOf (l ++ r) = true :=
  List.isPrefixOf_iff_prefix.mpr (List.prefix_append l r)

theorem isPrefixOf_append_left (l a b : Str) :
    (l ++ a).isPrefixOf (l ++ b) = a.isPrefixOf b := by
  induction l with
  | nil => rfl
  | cons x t ih => simp [List.isPrefixOf, ih]

/-- Stripping whitespace is the identity on a string that starts and ends
with a backtick. -/
theorem pyStrip_fenced (x c : Str) :
    pyStrip (('`' :: x) ++ c ++ str "```") = ('`' :: x) ++ c ++ str "```" := by
  have h1 : (('`' :: x) ++ c ++ str "```").dropWhile isPySpace
      = ('`' :: x) ++ c ++ str "```" := by
    simp [List.cons_append, List.dropWhile_cons, show isPySpace '`' = false from rfl]
  have h2 : List.rdropWhile isPySpace (('`' :: x) ++ c ++ str "```")
      = ('`' :: x) ++ c ++ str "```" := by
    rw [List.rdropWhile_eq_self_iff]
    intro hl
    rw [List.getLast_append' _ _ (by decide)]
    decide
  rw [pyStrip_eq_rdropWhile, h1, h2]

/-- The three fence checks are all negative on a backtick-free string. -/
theorem cleanContent_bare (c : Str) (hb : ('`' : Char) ∉ c) : cleanContent c = pyStrip c := by
  have hb0 : ('`' : Char) ∉ pyStrip c := fun h => hb (mem_of_mem_pyStrip h)
  simp only [cleanContent,
    not_prefixOf_of_no_backtick (str "```json") (pyStrip c) (by decide) hb0,
    not_prefixOf_of_no_backtick (str "```") (pyStrip c) (by decide) hb0,
    not_suffixOf_of_no_backtick (str "```") (pyStrip c) (by decide) hb0,
    Bool.false_eq_true, if_false]
  exact pyStrip_idem c

theorem fence_not_prefixOf_cons (a : Char) (l : Str) (ha : a ≠ '`') :
    (str "```").isPrefixOf (a :: l) = false := by
  rw [show (str "```" : Str) = '`' :: str "``" from rfl]
  simp only [List.isPrefixOf]
  rw [Bool.and_eq_false_iff]
  left
  rw [beq_eq_false_iff_ne]
  exact fun h => ha h.symm

/-- "json" is no prefix of a backtick-free string followed by a fence
unless it is already a prefix of the string itself. -/
theorem json_not_prefixOf_append (c : Str) (hb : ('`' : Char) ∉ c)
    (hj : (str "json").isPrefixOf c = false) :
    (str "json").isPrefixOf (c ++ str "```") = false := by
  by_contra h
  rw [Bool.not_eq_false] at h
  have hpre : str "json" <+: c ++ str "```" := List.isPrefixOf_iff_prefix.mp h
  have hc : c <+: c ++ str "```" := List.prefix_append c (str "```")
  rcases List.prefix_or_prefix_of_prefix hpre hc with h1 | h2
  · rw [List.isPrefixOf_iff_prefix.mpr h1] at hj
    cases hj
  · obtain ⟨t, ht⟩ := h2
    cases t with
    | nil =>
      rw [List.append_nil] at ht
      rw [ht] at hj
      have htrue : (str "json").isPrefixOf (str "json") = true := by decide
      rw [htrue] at hj
      cases hj
    | cons x u =>
      have hx1 : x ∈ str "json" := by
        rw [← ht]
        exact List.mem_append.mpr (Or.inr (List.mem_cons_self _ _))
      obtain ⟨w, hw⟩ := hpre
      rw [← ht, List.append_assoc] at hw
      have hxu : (x :: u) ++ w = str "```" := List.append_cancel_left hw
      have hx2 : x = '`' := by
        rw [List.cons_append] at hxu
        exact (List.cons.injEq _ _ _ _ ▸ hxu).1
      rw [hx2] at hx1
      exact absurd hx1 (by decide)

/-- Fence stripping on a `json`-tagged fenced input recovers the stripped
content. -/
theorem cleanContent_json_fence (c : Str) (hb : ('`' : Char) ∉ c) :
    cleanContent (str "```json" ++ c ++ str "```") = pyStrip c := by
  cases c with
  | nil => decide
  | cons a t =>
    have ha : a ≠ '`' := fun h => hb (h ▸ List.mem_cons_self a t)
    have hps : pyStrip (str "```json" ++ (a :: t) ++ str "```")
        = str "```json" ++ (a :: t) ++ str "```" := pyStrip_fenced (str "``json") (a :: t)
    have e2 : (str "```json").isPrefixOf (str "```json" ++ (a :: t) ++ str "```") = true := by
      rw [List.append_assoc]
      exact isPrefixOf_append_self _ _
    have e1 : (str "```json" ++ (a :: t) ++ str "```").drop 7 = (a :: t) ++ str "```" := by
      rw [List.append_assoc]
      exact List.drop_left' (by decide)
    have e3 : (str "```").isPrefixOf ((a :: t) ++ str "```") = false := by
      rw [List.cons_append]
      exact fence_not_prefixOf_cons a _ ha
    have e4 : (str "```").isSuffixOf ((a :: t) ++ str "```") = true :=
      List.isSuffixOf_iff_suffix.mpr (List.suffix_append _ _)
    have e5 : ((a :: t) ++ str "```").take (((a :: t) ++ str "```").length - 3) = a :: t := by
      have hlen : ((a :: t) ++ str "```").length - 3 = (a :: t).length := by
        have h3 : (str "```").length = 3 := rfl
        simp only [List.length_append, List.length_cons, h3]
        omega
      rw [hlen]
      exact List.take_left _ _
    simp only [cleanContent, hps, e2, e1, e3, e4, e5, if_true, Bool.false_eq_true, if_false]

/-- Fence stripping on an untagged fenced input recovers the stripped
content (for content not itself starting with the `json` tag). -/
theorem cleanContent_plain_fence (c : Str) (hb : ('`' : Char) ∉ c)
    (hj : (str "json").isPrefixOf c = false) :
    cleanContent (str "```" ++ c ++ str "```") = pyStrip c := by
  have hps : pyStrip (str "```" ++ c ++ str "```") = str "```" ++ c ++ str "```" :=
    pyStrip_fenced (str "``") c
  have e2 : (str "```json").isPrefixOf (str "```" ++ c ++ str "```") = false := by
    rw [List.append_assoc,
      show (str "```json" : Str) = str "```" ++ str "json" from rfl,
      isPrefixOf_append_left]
    exact json_not_prefixOf_append c hb hj
  have e3 : (str "```").isPrefixOf (str "```" ++ c ++ str "```") = true := by
    rw [List.append_assoc]
    exact isPrefixOf_append_self _ _
  have e1 : (str "```" ++ c ++ str "```").drop 3 = c ++ str "```" := by
    rw [List.append_assoc]
    exact List.drop_left' (by decide)
  have e4 : (str "```").isSuffixOf (c ++ str "```") = true :=
    List.isSuffixOf_iff_suffix.mpr (List.suffix_append _ _)
  have e5 : (c ++ str "```").take ((c ++ str "```").length - 3) = c := by
    have hlen : (c ++ str "```").length - 3 = c.length := by
      have h3 : (str "```").length = 3 := rfl
      simp only [List.length_append, h3]
      omega
    rw [hlen]
    exact List.take_left _ _
  simp only [cleanContent, hps, e2, e3, e1, e4, e5, if_true, Bool.false_eq_true, if_false]

/-- Claim C6, amended: fence stripping recognizes only the exact tokens
`\x60\x60\x60json` and `\x60\x60\x60`. For the `json` tag — or no tag, when the content does
not itself begin with "json" — and backtick-free content, the fenced input
is parsed identically to the bare content; other language tags are not
stripped (see the counterexample). -/
theorem claim6_amended (c : Str) (context : Context) (now : Str)
    (hb : ('`' : Char) ∉ c) (hj : (str "json").isPrefixOf c = false) :
    parse_ai_response_to_plan (str "```json" ++ c ++ str "```") context now
        = parse_ai_response_to_plan c context now
    ∧ parse_ai_response_to_plan (str "```" ++ c ++ str "```") context now
        = parse_ai_response_to_plan c context now := by
  constructor
  · simp only [parse_ai_response_to_plan, cleanContent_json_fence c hb, cleanContent_bare c hb]
  · simp only [parse_ai_response_to_plan, cleanContent_plain_fence c hb hj,
      cleanContent_bare c hb]

theorem claim6_amended_witness :
    parse_ai_response_to_plan (str "```json" ++ str "x" ++ str "```") initial_context (str "t")
        = parse_ai_response_to_plan (str "x") initial_context (str "t")
    ∧ parse_ai_response_to_plan (str "```" ++ str "x" ++ str "```") initial_context (str "t")
        = parse_ai_response_to_plan (str "x") initial_context (str "t") :=
  claim6_amended (str "x") initial_context (str "t") (by decide) (by decide)

/-- Claim C6, counterexample: with the language tag `python` the fenced
input is not parsed like the bare content — the tag text survives
stripping, JSON decoding fails, and the parser falls back to the templates,
while the bare content parses to a plan with an empty squares mapping. -/
theorem claim6_counterexample :
    parse_ai_response_to_plan (str "```python\n\x7b\"squares\": \x7b\x7d\x7d\n```")
        initial_context (str "t")
      = .ok { business_context := bc0
            , squares := square_templates initial_context
            , generated_at := str "t" }
    ∧ parse_ai_response_to_plan (str "\x7b\"squares\": \x7b\x7d\x7d") initial_context (str "t")
      = .ok { business_context := bc0, squares := [], generated_at := str "t" }
    ∧ ({ business_context := bc0
       , squares := square_templates initial_context
       , generated_at := str "t" } : MarketingPlan)
        ≠ { business_context := bc0, squares := [], generated_at := str "t" } :=
  ⟨rfl, rfl, by decide⟩
